import Mathlib

/-!
Verification of the `Searcher` component (src/searcher/searcher.rs) of the
Sw1ndlers/Searcher repository: a shallow embedding of the concurrent
search-and-display engine (directory walk, match accumulator, live renderer,
post-search browsing) together with proofs about it.

Machine integers: the Rust score type `i64` is modelled as `Int` (no
arithmetic overflow is exercised by any code path modelled here).
A Rust panic (an `unwrap` failure) is modelled as `none` in an `Option`
result; a normal return is `some`.
-/

namespace Searcher

/-- A match record, as stored in `Searcher.matches : Vec<(i64, String)>`:
the fuzzy score and the formatted display string. -/
abbrev MatchRecord := Int × String

/-- Substring containment, the semantics of Rust `str::contains(&str)`:
`needle` occurs contiguously inside `haystack`. -/
def containsSubstr (haystack needle : String) : Bool :=
  haystack.toList.tails.any fun t => needle.toList.isPrefixOf t

/-- The ANSI escape character U+001B, the first byte of a terminal color
escape sequence. -/
def ansiEsc : Char := Char.ofNat 27

/-- An ANSI color-start escape sequence (set foreground color). -/
def ansiStart : String := String.mk [ansiEsc] ++ "[31m"

/-- The ANSI color-reset escape sequence. -/
def ansiReset : String := String.mk [ansiEsc] ++ "[0m"

/-- Helper for `stripAnsi`: drops ANSI escape sequences from a character
list; the `Bool` is true while inside an escape sequence (which ends at the
terminating letter m). -/
def stripAnsiGo : Bool → List Char → List Char
  | _, [] => []
  | true, c :: rest =>
    if c = 'm' then stripAnsiGo false rest else stripAnsiGo true rest
  | false, c :: rest =>
    if c = ansiEsc then stripAnsiGo true rest else c :: stripAnsiGo false rest

/-- The text of a string as it is visible on the terminal: all ANSI color
escape sequences removed. -/
def stripAnsi (s : String) : String := String.mk (stripAnsiGo false s.toList)

/-- Modelled from the spec: the matching capability
`fuzzyMatch(candidateText, query)` (the `Matcher` collaborator,
src/matcher/matcher.rs, is not under the available sources). Subsequence
search: the query characters must occur in the candidate in order; helper
returning the ordered matched character indices, starting at offset `i`. -/
def fuzzyGo : List Char → List Char → Nat → Option (List Nat)
  | [], _, _ => some []
  | _ :: _, [], _ => none
  | q :: qs, c :: cs, i =>
    if q = c then (fuzzyGo qs cs (i + 1)).map fun l => i :: l
    else fuzzyGo (q :: qs) cs (i + 1)

/-- Modelled from the spec: the matching capability
`fuzzyMatch(candidateText, query) -> Option (score, matchedPositions)`.
Deterministic; returns `none` when the query characters do not occur in
order in the candidate; the score rewards matches that finish early
(closeness), higher is better. -/
def fuzzyMatch (query : String) (candidate : String) : Option (Int × List Nat) :=
  (fuzzyGo query.toList candidate.toList 0).map fun idxs =>
    ((candidate.length : Int) - ((idxs.getLastD 0 : Nat) : Int), idxs)

/-- Modelled from the spec: the highlighting capability
`decorate(text, matchedPositions)` (`StrExt::colorize_matches`,
src/utils/str_ext.rs, is not under the available sources): wraps each
matched character of the text in ANSI color escape sequences for terminal
emphasis; pure. -/
def colorize_matches (s : String) (indices : List Nat) : String :=
  String.join (s.toList.enum.map fun p =>
    if p.1 ∈ indices then ansiStart ++ String.mk [p.2] ++ ansiReset
    else String.mk [p.2])

/-- Modelled from the spec: the top-K size, a global constant of the
selection collaborator (recognized option `topK`, default 10). -/
def topK : Nat := 10

/-- Modelled from the spec: the selection/formatting capability
`get_top_matches` (src/searcher/top_matches.rs is not under the available
sources): returns the at most `topK` display strings ordered by descending
score with a stable tie-break, together with the non-negative count of
matches beyond `topK` (the overflow count). Deterministic. -/
def get_top_matches (ms : List MatchRecord) : List String × Nat :=
  let sorted := List.insertionSort (fun a b : MatchRecord => b.1 ≤ a.1) ms
  ((sorted.take topK).map fun p => p.2, ms.length - topK)

/-- A model filesystem tree. `name` is `none` when the entry's OS name
cannot be decoded as UTF-8 text (Rust `OsStr::to_str()` returns `None`).
For a directory, `listing = none` models `std::fs::read_dir` failing
(an unreadable directory); an element `none` of a listing models the
`read_dir` iterator yielding an `Err` entry. -/
inductive FsTree where
  | file (name : Option String) : FsTree
  | dir (name : Option String) (listing : Option (List (Option FsTree))) : FsTree
deriving Repr

/-- The (possibly undecidable) textual name of an entry. -/
def FsTree.entryName : FsTree → Option String
  | .file n => n
  | .dir n _ => n

/-- Whether the entry is a directory (Rust `Path::is_dir`). -/
def FsTree.isDirectory : FsTree → Bool
  | .file _ => false
  | .dir _ _ => true

/-- `Searcher::check_match` (searcher.rs lines 38–56), for one entry whose
containing directory has relative path `parentDir`. The source first
decodes the file name (`path.file_name().unwrap().to_str().unwrap()`,
line 42) — a panic, modelled `none`, when the name is not valid UTF-8 —
then tests it with `matcher.fmatch`; on a match it formats
`".\\{parent_dir}\\{colored_name}"` with the matched characters
highlighted and appends the record to the accumulator. The returned list
is the sequence of records this call appends (empty or a singleton). -/
def check_match (fm : String → Option (Int × List Nat)) (parentDir : String)
    (name : Option String) : Option (List MatchRecord) :=
  match name with
  | none => none
  | some fileName =>
    match fm fileName with
    | none => some []
    | some (score, indices) =>
      let coloredName := colorize_matches fileName indices
      let formattedString := "." ++ "\\" ++ parentDir ++ "\\" ++ coloredName
      some [(score, formattedString)]

/-- Relative-path concatenation used when descending into a subdirectory. -/
def joinPath (parent childName : String) : String :=
  if parent = "" then childName else parent ++ "\\" ++ childName

mutual
/-- `Searcher::search_directory` (searcher.rs lines 58–81). When
`read_dir` fails (also when `path` is a file) the directory is skipped:
the function returns `Ok(())` at once, printing a diagnostic when verbose
(lines 59–65); otherwise each child entry is processed (lines 67–78).
Result: `none` models a panic; `some (ms, ds)` models a normal return
where `ms` is the sequence of records appended to the accumulator during
the call and `ds` the diagnostics printed. The parallel `for_each` is
sequentialized in listing order. -/
def search_directory (fm : String → Option (Int × List Nat)) (vb : Bool) :
    FsTree → String → Option (List MatchRecord × List String)
  | FsTree.file _, relDir =>
      some ([], if vb then ["Error reading directory: " ++ relDir] else [])
  | FsTree.dir _ none, relDir =>
      some ([], if vb then ["Error reading directory: " ++ relDir] else [])
  | FsTree.dir _ (some listing), relDir => search_children fm vb listing relDir

/-- The body of the `for_each` over the children of one directory
(searcher.rs lines 67–78): an `Err` entry from the iterator panics at
`entry.unwrap()` (line 68, modelled `none`); otherwise the entry is
tested with `check_match` (line 73) and, when a directory, recursively
walked with `search_directory(..).unwrap()` (line 76), so a panic below
propagates. -/
def search_children (fm : String → Option (Int × List Nat)) (vb : Bool) :
    List (Option FsTree) → String → Option (List MatchRecord × List String)
  | [], _ => some ([], [])
  | none :: _, _ => none
  | some child :: rest, relDir =>
    match check_match fm relDir child.entryName with
    | none => none
    | some recs =>
      match (if child.isDirectory then
               search_directory fm vb child (joinPath relDir (child.entryName.getD ""))
             else some ([], [])) with
      | none => none
      | some (ms, ds) =>
        match search_children fm vb rest relDir with
        | none => none
        | some (ms', ds') => some (recs ++ ms ++ ms', ds ++ ds')
end

/-- The shared mutable state of one search run: the match accumulator
(`Searcher.matches`) and the completion flag (`completed_search`). -/
structure SearchState where
  accMatches : List MatchRecord
  completed : Bool
deriving Repr, DecidableEq

/-- The shared state at the start of `Searcher::search`: the accumulator
is empty (constructed in `Searcher::new`, line 32) and the completion
flag is created `false` (`Mutex::new(false)`, line 134). -/
def initialState : SearchState := { accMatches := [], completed := false }

/-- The sequence of actions `Searcher::search` performs on the shared
state, in program order (searcher.rs lines 137, 165, 166, 168, 171–178):
spawn the renderer thread, run `search_directory` to completion on the
calling thread, set the completion flag, lock the accumulator and take
the final snapshot, render the final authoritative view from it. -/
inductive OrchestratorEvent where
  | spawnRenderer
  | runWalk
  | setCompletedTrue
  | takeFinalSnapshot
  | renderFinal
deriving Repr, DecidableEq

/-- The program-order event list of `Searcher::search` (lines 137–178). -/
def search_events : List OrchestratorEvent :=
  [OrchestratorEvent.spawnRenderer, OrchestratorEvent.runWalk,
   OrchestratorEvent.setCompletedTrue, OrchestratorEvent.takeFinalSnapshot,
   OrchestratorEvent.renderFinal]

/-- The state-passing model of `Searcher::search` up to and including the
final authoritative render (searcher.rs lines 128–178): starting from
`initialState`, the walk (line 165, `.unwrap()` — a panic below
propagates, modelled `none`) appends all its records to the accumulator,
the completion flag is set (line 166), and the final view is computed by
`get_top_matches` on a snapshot of the accumulator taken after that
(lines 168–169). Returns the final shared state and the final view. -/
def search_run (fm : String → Option (Int × List Nat)) (vb : Bool) (fs : FsTree) :
    Option (SearchState × (List String × Nat)) :=
  match search_directory fm vb fs "" with
  | none => none
  | some (ms, _) =>
    let st : SearchState :=
      { initialState with accMatches := initialState.accMatches ++ ms, completed := true }
    some (st, get_top_matches st.accMatches)

/-- The two reads of shared state a renderer loop iteration performs. -/
inductive RendererAccess where
  | snapshotMatches
  | readCompletedFlag
deriving Repr, DecidableEq

/-- The order of the shared-state reads in one iteration of the renderer
loop, as written in the source (searcher.rs lines 141–145): the matches
mutex is locked and the contents cloned first (lines 141–142), and only
then is the completion flag locked and read (lines 143–145). -/
def renderer_iteration_accesses : List RendererAccess :=
  [RendererAccess.snapshotMatches, RendererAccess.readCompletedFlag]

/-- What one renderer loop iteration does to the terminal:
exit the loop (`break`, line 146), print only the lightweight progress
indicator `"\r... N more matches"` carrying the overflow count (line 154,
no screen clear), or clear the screen and redraw the full top-K view
(lines 158–159). -/
inductive RenderStep where
  | exit
  | progress (extra : Nat)
  | redraw (view : List String)
deriving Repr, DecidableEq

/-- Whether a renderer step clears the screen (only the full redraw calls
`clear_screen`, line 158). -/
def RenderStep.clearsScreen : RenderStep → Bool
  | RenderStep.redraw _ => true
  | _ => false

/-- One iteration of the renderer loop (searcher.rs lines 140–162), given
the values it observes: the accumulator contents it cloned (lines
141–142) and the completion flag it then read (lines 143–145). If the
flag is set the loop breaks (line 146). Otherwise the top-K view is
computed from the snapshot (line 151); if it equals the last printed view
only the progress indicator is emitted and the remembered view is left
unchanged (lines 153–156); otherwise the screen is cleared, the view is
redrawn, and it becomes the remembered view (lines 158–161). Returns the
step taken and the new remembered last-printed view. -/
def renderer_iteration (last : List String) (snapshot : List MatchRecord)
    (completed : Bool) : RenderStep × List String :=
  if completed then (RenderStep.exit, last)
  else
    let top := (get_top_matches snapshot).1
    let extra := (get_top_matches snapshot).2
    if top = last then (RenderStep.progress extra, last)
    else (RenderStep.redraw top, top)

/-- One renderer iteration against a timeline `sharedAt` of shared-state
values (accumulator contents, completion flag) indexed by instants: the
iteration performs its two shared reads in source order (lines 141–145),
the accumulator clone at the earlier instant `t` and the completion flag
read at the later instant `t + 1`. -/
def renderer_iteration_timed (last : List String)
    (sharedAt : Nat → List MatchRecord × Bool) (t : Nat) :
    RenderStep × List String :=
  renderer_iteration last (sharedAt t).1 (sharedAt (t + 1)).2

/-- The iteration read order as the spec's words describe it (read the
completion flag first, then take the snapshot): the flag would be read at
the earlier instant `t` and the accumulator cloned at the later instant
`t + 1`. Stated for comparison with `renderer_iteration_timed`, which
follows the source. -/
def renderer_iteration_claimed_order (last : List String)
    (sharedAt : Nat → List MatchRecord × Bool) (t : Nat) :
    RenderStep × List String :=
  renderer_iteration last (sharedAt (t + 1)).1 (sharedAt t).2

/-- The renderer loop (searcher.rs lines 140–162) run against a finite
schedule of observations, each observation being the pair (accumulator
contents cloned, completion flag value read) of one iteration. Returns
the list of steps taken and the final remembered last-printed view; the
loop stops at the first iteration that observes the flag `true` (the
`break` at line 146), or when the schedule is exhausted. -/
def renderer_loop (last : List String) :
    List (List MatchRecord × Bool) → List RenderStep × List String
  | [] => ([], last)
  | o :: rest =>
    let r := renderer_iteration last o.1 o.2
    if r.1 = RenderStep.exit then ([r.1], r.2)
    else (r.1 :: (renderer_loop r.2 rest).1, (renderer_loop r.2 rest).2)

/-- `Searcher::show_all` (searcher.rs lines 83–96): prints every
accumulated match's display string and their count; reads the
accumulator, never writes it. Returns (printed lines, printed count). -/
def show_all (R : List MatchRecord) : List String × Nat :=
  (R.map fun p => p.2, R.length)

/-- `Searcher::filter` (searcher.rs lines 98–114), applied to the frozen
result set `R` with the prompted substring `query`: keeps exactly the
records whose stored display string contains `query` (line 104, Rust
`str::contains`), prints their display strings and their count (lines
112–113). The accumulator is only read (`iter()`), never written; the
third component returns the (unchanged) result set the operation leaves
behind. -/
def filter (R : List MatchRecord) (query : String) :
    List String × Nat × List MatchRecord :=
  let kept := (R.filter fun p => containsSubstr p.2 query).map fun p => p.2
  (kept, kept.length, R)

/-- Result of one interactive prompt: the prompt may fail when the input
stream is unusable (the error case of `inquire`'s `prompt()`). -/
inductive PromptResult (α : Type) where
  | ok (a : α)
  | failed
deriving Repr, DecidableEq

/-- The two entries of the post-search menu (`AfterSearchOption`). -/
inductive AfterSearchOption where
  | showAll
  | filterChoice
deriving Repr, DecidableEq

/-- How the browsing phase ends: normally; by returning an error to the
caller (Rust `?`, which propagates to the top of `search` and out of the
program); or by a panic (Rust `unwrap` on a failed prompt). -/
inductive Outcome where
  | ok
  | errorReturn
  | panicked
deriving Repr, DecidableEq

/-- The prompt step of `Searcher::filter` (searcher.rs line 99):
`Text::new("Filter by:").prompt().unwrap()` — a failed prompt panics. -/
def filter_prompt_outcome (textRes : PromptResult String) : Outcome :=
  match textRes with
  | PromptResult.failed => Outcome.panicked
  | PromptResult.ok _ => Outcome.ok

/-- `Searcher::after_search` (searcher.rs lines 116–126), given the
results of the prompts it may run: the menu selection prompt's error is
propagated with `?` (line 117), so a failed selection returns an error to
the caller; choosing the filter entry runs `Searcher::filter`, whose text
prompt failure panics (line 99). -/
def after_search (selectRes : PromptResult AfterSearchOption)
    (textRes : PromptResult String) (R : List MatchRecord) : Outcome :=
  match selectRes with
  | PromptResult.failed => Outcome.errorReturn
  | PromptResult.ok AfterSearchOption.showAll => Outcome.ok
  | PromptResult.ok AfterSearchOption.filterChoice =>
    match textRes with
    | PromptResult.failed => Outcome.panicked
    | PromptResult.ok _ =>
      let _printed := filter R (match textRes with
        | PromptResult.ok q => q
        | PromptResult.failed => "")
      Outcome.ok

/-! Concrete instances used to exercise the definitions. -/

/-- A concrete matcher instance: the session query is "ap". -/
def demoFmatch : String → Option (Int × List Nat) := fuzzyMatch "ap"

/-- A concrete readable tree: two files, of which one matches "ap". -/
def demoTree : FsTree :=
  FsTree.dir (some "base")
    (some [some (FsTree.file (some "apple.txt")),
           some (FsTree.file (some "banana.txt"))])

/-- The walk result on `demoTree` (a normal return). -/
def demoWalk : List MatchRecord × List String :=
  (search_directory demoFmatch false demoTree "").getD ([], [])

/-- A concrete matcher instance with the single-character query "a". -/
def demoFmatchA : String → Option (Int × List Nat) := fuzzyMatch "a"

/-- A tree holding one file whose name matches query "a" at its first
character only. -/
def demoTreeA : FsTree :=
  FsTree.dir (some "base") (some [some (FsTree.file (some "apple.txt"))])

/-- The accumulated result set after walking `demoTreeA` with query "a". -/
def demoMatchesA : List MatchRecord :=
  ((search_directory demoFmatchA false demoTreeA "").getD ([], [])).1

/-- The stored display string of the single match in `demoMatchesA`. -/
def demoDisplayA : String := (demoMatchesA.headD (0, "")).2

/-- A tree with an unreadable subdirectory among readable entries
(the spec's Scenario B). -/
def lockedSubdirTree : FsTree :=
  FsTree.dir (some "base")
    (some [some (FsTree.file (some "apple.txt")),
           some (FsTree.dir (some "locked") none),
           some (FsTree.file (some "zapx.txt"))])

/-- A readable directory whose listing iterator yields one `Err` entry
between two readable entries. -/
def errEntryTree : FsTree :=
  FsTree.dir (some "d")
    (some [some (FsTree.file (some "apple.txt")), none,
           some (FsTree.file (some "zig"))])

/-- The same directory without the `Err` entry. -/
def errEntryTreeClean : FsTree :=
  FsTree.dir (some "d")
    (some [some (FsTree.file (some "apple.txt")),
           some (FsTree.file (some "zig"))])

/-- A directory whose subdirectory's listing yields an `Err` entry, so the
recursive `search_directory` call panics and the panic is unwrapped by the
outer `for_each` (line 76). -/
def nestedErrTree : FsTree :=
  FsTree.dir (some "d") (some [some (FsTree.dir (some "sub") (some [none]))])

/-- A directory containing an entry whose OS name is not valid UTF-8
(`name = none`) next to an ordinary entry. -/
def nonTextNameTree : FsTree :=
  FsTree.dir (some "d")
    (some [some (FsTree.file (some "apple.txt")), some (FsTree.file none)])

/-- A concrete renderer observation schedule: two iterations observe the
completion flag `false`, the third observes it `true`. -/
def demoSchedule : List (List MatchRecord × Bool) :=
  [([], false), ([((1 : Int), "a")], false), ([((1 : Int), "a")], true)]

/-- A concrete timeline of shared-state values: at instant 0 the
accumulator is empty and the flag is unset; from instant 1 on, one record
has been appended and the flag is set. -/
def demoTimeline : Nat → List MatchRecord × Bool := fun t =>
  if t = 0 then ([], false) else ([((1 : Int), "a")], true)

/-! Auxiliary lemmas about the renderer loop. -/

/-- An iteration that observes the completion flag set breaks at once,
leaving the remembered view untouched. -/
theorem renderer_iteration_flag_true (last : List String)
    (snap : List MatchRecord) :
    renderer_iteration last snap true = (RenderStep.exit, last) := rfl

/-- An iteration that observes the completion flag unset never exits. -/
theorem renderer_iteration_flag_false_ne_exit (last : List String)
    (snap : List MatchRecord) :
    (renderer_iteration last snap false).1 ≠ RenderStep.exit := by
  unfold renderer_iteration
  simp only [Bool.false_eq_true, if_false]
  split <;> simp

/-- If the schedule's completion-flag observations are `false` strictly
before instant `T` and `true` from `T` on (the flag is set once, at the
walk's end), the loop runs exactly `T` non-exit iterations and exits at
the iteration that first observes the flag. -/
theorem renderer_loop_exit_structure :
    ∀ (obs : List (List MatchRecord × Bool)) (T : Nat) (last : List String),
      (∀ i, (h : i < obs.length) → (obs[i].2 = true ↔ T ≤ i)) →
      T < obs.length →
      ∃ ps, (renderer_loop last obs).1 = ps ++ [RenderStep.exit] ∧
        ps.length = T ∧ ∀ s ∈ ps, s ≠ RenderStep.exit := by
  intro obs
  induction obs with
  | nil => intro T last _ hlen; simp at hlen
  | cons o rest ih =>
    intro T last hT hlen
    match T with
    | 0 =>
      have h0 : o.2 = true := (hT 0 (by simp)).mpr (Nat.le_refl 0)
      refine ⟨[], ?_, rfl, by simp⟩
      simp [renderer_loop, h0, renderer_iteration]
    | Nat.succ T' =>
      have h0 : o.2 = false := by
        have h := hT 0 (by simp)
        simpa using h
      have hne := renderer_iteration_flag_false_ne_exit last o.1
      obtain ⟨ps, hps, hlenps, hpne⟩ :=
        ih T' (renderer_iteration last o.1 false).2
          (fun i h => by
            have h2 := hT (i + 1) (by simpa using Nat.succ_lt_succ h)
            simpa [Nat.succ_le_succ_iff] using h2)
          (Nat.lt_of_succ_lt_succ (by simpa using hlen))
      refine ⟨(renderer_iteration last o.1 false).1 :: ps, ?_, by simp [hlenps], ?_⟩
      · simp [renderer_loop, h0, hne, hps]
      · intro s hs
        rcases List.mem_cons.mp hs with h | h
        · subst h; exact hne
        · exact hpne s h

/-! The claims. -/

/-- C1: after `search_directory` returns for the base path, the final
authoritative render is `get_top_matches` applied to the full, settled
accumulator contents — every record the walk appended is in the snapshot
the final render is computed from, and in the orchestrator's program
order that snapshot is taken only after the walk has returned and the
completion flag has been set. -/
theorem c1_final_render_from_settled_accumulator
    (fm : String → Option (Int × List Nat)) (vb : Bool) (fs : FsTree)
    (ms : List MatchRecord) (ds : List String)
    (hwalk : search_directory fm vb fs "" = some (ms, ds)) :
    search_run fm vb fs
      = some ({ accMatches := ms, completed := true }, get_top_matches ms) ∧
    search_events.indexOf OrchestratorEvent.runWalk
      < search_events.indexOf OrchestratorEvent.takeFinalSnapshot ∧
    search_events.indexOf OrchestratorEvent.setCompletedTrue
      < search_events.indexOf OrchestratorEvent.takeFinalSnapshot := by
  refine ⟨?_, by decide, by decide⟩
  simp [search_run, hwalk, initialState]

/-- Witness for C1: on the concrete tree `demoTree` the walk returns
normally and the final render is `get_top_matches` of everything it
appended. -/
theorem c1_witness :
    search_directory demoFmatch false demoTree "" = some (demoWalk.1, demoWalk.2) ∧
    search_run demoFmatch false demoTree
      = some ({ accMatches := demoWalk.1, completed := true },
              get_top_matches demoWalk.1) :=
  ⟨by decide,
   (c1_final_render_from_settled_accumulator demoFmatch false demoTree
      demoWalk.1 demoWalk.2 (by decide)).1⟩

/-- C2 (the code contradicts this): evaluating the walker at a directory
that contains an entry whose OS name is not valid UTF-8: `check_match`
panics at `to_str().unwrap()` (line 42, modelled `none`) and the panic
aborts the entire scan instead of skipping the entry like an unreadable
directory. -/
theorem c2_nontext_name_aborts_walk :
    search_directory demoFmatch false nonTextNameTree "" = none ∧
    check_match demoFmatch "" none = none := by
  exact ⟨by decide, rfl⟩

/-- C3: the completion flag starts `false`, the orchestrator sets it
exactly once, immediately after the walk event, and the renderer loop
exits exactly at the iteration that first observes the flag `true` —
never strictly before the walk's end (all earlier steps are non-exit
steps) and immediately at its end. -/
theorem c3_renderer_terminates_with_flag
    (obs : List (List MatchRecord × Bool)) (T : Nat) (last : List String)
    (hT : ∀ i, (h : i < obs.length) → (obs[i].2 = true ↔ T ≤ i))
    (hlen : T < obs.length) :
    initialState.completed = false ∧
    search_events.count OrchestratorEvent.setCompletedTrue = 1 ∧
    search_events.indexOf OrchestratorEvent.setCompletedTrue
      = search_events.indexOf OrchestratorEvent.runWalk + 1 ∧
    ∃ ps, (renderer_loop last obs).1 = ps ++ [RenderStep.exit] ∧
      ps.length = T ∧ ∀ s ∈ ps, s ≠ RenderStep.exit := by
  refine ⟨rfl, by decide, by decide, ?_⟩
  exact renderer_loop_exit_structure obs T last hT hlen

/-- Witness for C3: on the concrete schedule `demoSchedule`, whose flag
observations turn `true` at instant 2, the loop takes exactly two
non-exit steps and then exits. -/
theorem c3_witness :
    (∀ i, (h : i < demoSchedule.length) → (demoSchedule[i].2 = true ↔ 2 ≤ i)) ∧
    2 < demoSchedule.length ∧
    ∃ ps, (renderer_loop [] demoSchedule).1 = ps ++ [RenderStep.exit] ∧
      ps.length = 2 ∧ ∀ s ∈ ps, s ≠ RenderStep.exit :=
  ⟨by decide, by decide,
   (c3_renderer_terminates_with_flag demoSchedule 2 [] (by decide)
      (by decide)).2.2.2⟩

/-- C4 counterexample: the claim says the completion flag is read before
the accumulator snapshot in every renderer iteration; in the source the
snapshot (lines 141–142) precedes the flag read (lines 143–145), so the
flag's index in the iteration's access order is not smaller than the
snapshot's, and on the concrete timeline `demoTimeline` the source's read
order is observably different from the claimed one. -/
theorem c4_counterexample :
    ¬ (renderer_iteration_accesses.indexOf RendererAccess.readCompletedFlag
        < renderer_iteration_accesses.indexOf RendererAccess.snapshotMatches) ∧
    renderer_iteration_timed [] demoTimeline 0
      ≠ renderer_iteration_claimed_order [] demoTimeline 0 := by
  exact ⟨by decide, by decide⟩

/-- C4 (amended): in every iteration of the renderer loop the accumulator
snapshot is taken before the completion flag is read — the reverse of the
order the claim states. -/
theorem c4_amended_snapshot_before_flag :
    renderer_iteration_accesses.indexOf RendererAccess.snapshotMatches
      < renderer_iteration_accesses.indexOf RendererAccess.readCompletedFlag ∧
    ∀ last sharedAt t, renderer_iteration_timed last sharedAt t
      = renderer_iteration last (sharedAt t).1 (sharedAt (t + 1)).2 :=
  ⟨by decide, fun _ _ _ => rfl⟩

/-- C5: a directory that cannot be read is skipped: `search_directory`
returns success with no appended matches, printing a diagnostic exactly
when verbose is set; and on a tree with an unreadable subdirectory among
readable ones the scan completes with the matches of the readable part
only and no diagnostics when verbose is off. -/
theorem c5_unreadable_directory_skipped
    (fm : String → Option (Int × List Nat)) (vb : Bool)
    (n : Option String) (relDir : String) :
    search_directory fm vb (FsTree.dir n none) relDir
      = some ([], if vb then ["Error reading directory: " ++ relDir] else []) ∧
    (search_directory fm vb (FsTree.dir n none) relDir).isSome = true ∧
    (search_directory demoFmatch false lockedSubdirTree "").isSome = true ∧
    ((search_directory demoFmatch false lockedSubdirTree "").getD ([], [])).1.length = 2 ∧
    ((search_directory demoFmatch false lockedSubdirTree "").getD ([], [])).2 = [] := by
  exact ⟨rfl, rfl, by decide, by decide, by decide⟩

/-- C6: an iteration whose computed top-K view equals the last rendered
view emits only the progress indicator carrying the overflow count — no
screen clear, no redraw, and the remembered view is unchanged; the
remembered view changes only in an iteration whose view differs, and then
by a full redraw of the new view. -/
theorem c6_render_stability (last : List String) (snap : List MatchRecord)
    (h : (get_top_matches snap).1 = last) :
    renderer_iteration last snap false
      = (RenderStep.progress (get_top_matches snap).2, last) ∧
    (renderer_iteration last snap false).1.clearsScreen = false ∧
    ∀ last' snap', (renderer_iteration last' snap' false).2 ≠ last' →
      (renderer_iteration last' snap' false).2 = (get_top_matches snap').1 ∧
      (renderer_iteration last' snap' false).1
        = RenderStep.redraw (get_top_matches snap').1 := by
  refine ⟨?_, ?_, ?_⟩
  · simp [renderer_iteration, h]
  · simp [renderer_iteration, h, RenderStep.clearsScreen]
  · intro last' snap' hne
    by_cases hc : (get_top_matches snap').1 = last'
    · exfalso; apply hne; simp [renderer_iteration, hc]
    · simp [renderer_iteration, hc]

/-- Witness for C6: a concrete iteration whose view is unchanged emits
the progress indicator only. -/
theorem c6_witness :
    (get_top_matches [((1 : Int), "a")]).1 = ["a"] ∧
    renderer_iteration ["a"] [((1 : Int), "a")] false
      = (RenderStep.progress (get_top_matches [((1 : Int), "a")]).2, ["a"]) :=
  ⟨by decide, (c6_render_stability ["a"] [((1 : Int), "a")] (by decide)).1⟩

/-- C7: for every substring `q` and frozen result set `R`, the filter
operation displays exactly the display strings of the records of `R`
whose stored display string contains `q`, reports their count, returns an
empty list and count 0 when no display string contains `q`, and leaves
`R` (hence every record's score) unchanged. -/
theorem c7_filter_exactness (R : List MatchRecord) (q : String) :
    (filter R q).2.1 = (filter R q).1.length ∧
    (filter R q).2.2 = R ∧
    (∀ s, s ∈ (filter R q).1
       ↔ ∃ p, p ∈ R ∧ p.2 = s ∧ containsSubstr p.2 q = true) ∧
    ((∀ p, p ∈ R → containsSubstr p.2 q = false)
       → (filter R q).1 = [] ∧ (filter R q).2.1 = 0) := by
  refine ⟨rfl, rfl, ?_, ?_⟩
  · intro s
    simp only [filter, List.mem_map, List.mem_filter]
    constructor
    · rintro ⟨p, ⟨hpR, hpc⟩, hps⟩
      exact ⟨p, hpR, hps, hpc⟩
    · rintro ⟨p, hpR, hps, hpc⟩
      exact ⟨p, ⟨hpR, hpc⟩, hps⟩
  · intro hall
    have hnil : (R.filter fun p => containsSubstr p.2 q) = [] := by
      rw [List.filter_eq_nil_iff]
      intro p hp
      simp [hall p hp]
    constructor
    · simp [filter, hnil]
    · simp [filter, hnil]

/-- Witness for C7: filtering a concrete frozen set by a substring that
occurs in no display string yields the empty list and count 0. -/
theorem c7_witness :
    (filter [((1 : Int), "abc")] "zz").1 = []
      ∧ (filter [((1 : Int), "abc")] "zz").2.1 = 0 :=
  (c7_filter_exactness [((1 : Int), "abc")] "zz").2.2.2 (by decide)

/-- C8 counterexample: a failure of the filter's free-text prompt does
not propagate as an error: `Searcher::filter` calls `prompt().unwrap()`
(line 99), so the browsing phase ends in a panic rather than an error
return to the top of the session. -/
theorem c8_counterexample :
    after_search (PromptResult.ok AfterSearchOption.filterChoice)
        PromptResult.failed [] = Outcome.panicked ∧
    Outcome.panicked ≠ Outcome.errorReturn := by
  exact ⟨rfl, by decide⟩

/-- C8 (amended): every prompting failure aborts the browsing phase, is
never retried, and ends the program — but only the menu-selection
prompt's failure propagates as an error (`?`, line 117); a failure of the
filter's text prompt aborts via a panic (`unwrap`, line 99) instead of
error propagation. -/
theorem c8_prompt_failures_abort
    (tp : PromptResult String) (R R' : List MatchRecord) :
    after_search PromptResult.failed tp R = Outcome.errorReturn ∧
    after_search (PromptResult.ok AfterSearchOption.filterChoice)
        PromptResult.failed R' = Outcome.panicked ∧
    after_search PromptResult.failed tp R ≠ Outcome.ok ∧
    after_search (PromptResult.ok AfterSearchOption.filterChoice)
        PromptResult.failed R' ≠ Outcome.ok ∧
    filter_prompt_outcome PromptResult.failed = Outcome.panicked := by
  refine ⟨rfl, rfl, ?_, ?_, rfl⟩
  · intro h; exact Outcome.noConfusion h
  · intro h; exact Outcome.noConfusion h

/-- Witness for C8 (amended): the two failure modes at concrete inputs. -/
theorem c8_witness :
    after_search PromptResult.failed PromptResult.failed [] = Outcome.errorReturn ∧
    after_search (PromptResult.ok AfterSearchOption.filterChoice)
        PromptResult.failed [] = Outcome.panicked :=
  ⟨(c8_prompt_failures_abort PromptResult.failed [] []).1,
   (c8_prompt_failures_abort PromptResult.failed [] []).2.1⟩

/-- C9: a directory whose listing iterator yields an `Err` entry between
otherwise readable entries makes the walk panic at `entry.unwrap()`
(line 68) and abort the scan (the same listing without the `Err` entry
completes normally); and a panic of a recursive `search_directory` call
is unwrapped by the `for_each` (line 76) and propagates. -/
theorem c9_err_entry_panics_scan :
    search_directory demoFmatch false errEntryTree "" = none ∧
    (search_directory demoFmatch false errEntryTreeClean "").isSome = true ∧
    search_directory demoFmatch false nestedErrTree "" = none := by
  exact ⟨by decide, by decide, by decide⟩

/-- C10: the stored display string of the concrete match embeds ANSI
color escape sequences produced by highlighting the matched character,
and the filter's substring test runs over that raw stored string: the
substring "ap" is visible contiguously on screen (it occurs in the
display string with escapes stripped) yet is reported as not contained in
the raw string, so the filter returns nothing. -/
theorem c10_ansi_codes_defeat_filter :
    containsSubstr demoDisplayA ansiStart = true ∧
    containsSubstr (stripAnsi demoDisplayA) "ap" = true ∧
    containsSubstr demoDisplayA "ap" = false ∧
    demoMatchesA.length = 1 ∧
    (filter demoMatchesA "ap").1 = [] ∧
    (filter demoMatchesA "ap").2.1 = 0 := by
  exact ⟨by decide, by decide, by decide, by decide, by decide, by decide⟩

end Searcher
